import Mathlib

/-!
# Verification of the AP_Rally rally-point store and return-location selector

Shallow embedding of `libraries/AP_Rally/AP_Rally.cpp`: a fixed-capacity
store of rally-point records in a persistent byte region, plus the
nearest-rally-point search and the best-return-location decision.

External collaborators (storage driver, AHRS home position, the distance
function on locations, the vehicle-specific validity check) are modelled as
parameters, following the collaborator contracts of the design document.
Distances and the kilometre limit are modelled as exact rationals; the
32-bit altitude arithmetic of the record-to-location conversion is modelled
with explicit wrap-around.
-/

namespace AP_Rally

/-- Modelled from the spec: the fixed-size persisted rally record
(`RallyLocation`, declared in `AP_Rally.h` which is outside the sources):
latitude and longitude as signed 1e-7 degree integers, altitude as a
compact signed integer in metres. -/
structure RallyLocation where
  lat : Int
  lng : Int
  alt : Int
  deriving DecidableEq, Repr

/-- Modelled from the spec: the geographic `Location` value used by the
selector (declared outside the sources): fixed-point latitude/longitude,
altitude in centimetres, and the relative-altitude flag. -/
structure Location where
  lat : Int
  lng : Int
  alt : Int
  relative_alt : Bool
  deriving DecidableEq, Repr

/-- Observable side effects of the store operations: persisting the count
parameter (`set_and_save_ifchanged`), writing record bytes
(`StorageAccess.write_block`), and the structured rally-point log entry
(`Write_RallyPoint(total, index, record)`). -/
inductive Event where
  | persistCount (n : Nat)
  | writeRecord (i : Nat) (r : RallyLocation)
  | logRally (total : Nat) (i : Nat) (r : RallyLocation)
  deriving DecidableEq, Repr

/-- State of the rally store: the persisted record region (indexed by slot,
modelled from the spec contract of the storage driver as a total read),
the persisted count parameter `_rally_point_total_count`, and the capacity
`get_rally_max() = storage size / record size`. -/
structure RallyState where
  storage : Nat → RallyLocation
  count : Nat
  cap : Nat

/-- Policy parameters of `AP_Rally::var_info`: `RALLY_LIMIT_KM`,
`RALLY_INCL_HOME`, `RALLY_FS_MODE`. -/
structure Params where
  rally_limit_km : Rat
  rally_incl_home : Int
  rally_fs_mode : Int
  deriving DecidableEq, Repr

/-- External collaborators: the AHRS home location, the distance function
`Location::get_distance` between two locations (modelled from the spec as
an exact-valued distance), and the virtual validity check `is_valid` on a
converted location (modelled from the spec; the base class accepts every
location, vehicles may override). -/
structure Env where
  home : Location
  dist : Location → Location → Rat
  isValid : Location → Bool

/-- `AP_Rally::get_rally_point_with_index`: fails for an index at or past
the current count, reads the record bytes at `index * record_size`, and
reports absent when the read record has zero latitude and longitude. -/
def get_rally_point_with_index (s : RallyState) (i : Nat) : Option RallyLocation :=
  if s.count ≤ i then
    none
  else
    let ret := s.storage i
    if ret.lat = 0 ∧ ret.lng = 0 then
      none
    else
      some ret

/-- `AP_Param::set_and_save_ifchanged` on the count parameter: persists the
new value only when it differs from the current one. -/
def set_and_save_ifchanged (s : RallyState) (n : Nat) : RallyState × List Event :=
  if n = s.count then
    (s, [])
  else
    ({ s with count := n }, [Event.persistCount n])

/-- `AP_Rally::truncate`: a new count larger than the current one is
refused (the space is never grown this way); otherwise the count parameter
is saved if changed. Record bytes are never touched. -/
def truncate (s : RallyState) (num : Nat) : RallyState × List Event :=
  if s.count < num then
    (s, [])
  else
    set_and_save_ifchanged s num

/-- `AP_Rally::set_rally_point_with_index`: fails for an index at or past
the current count, fails for an index at or past the capacity
`get_rally_max()`, otherwise writes the record bytes at the computed
offset and emits the structured log entry carrying the current count, the
index and the record. -/
def set_rally_point_with_index (s : RallyState) (i : Nat) (r : RallyLocation) :
    Bool × RallyState × List Event :=
  if s.count ≤ i then
    (false, s, [])
  else if s.cap ≤ i then
    (false, s, [])
  else
    (true,
     { s with storage := fun j => if j = i then r else s.storage j },
     [Event.writeRecord i r, Event.logRally s.count i r])

/-- `AP_Rally::append`: reads the current total, persists total + 1, then
writes the record at index equal to the old total; if that write fails the
old total is persisted again and failure is returned. -/
def append (s : RallyState) (r : RallyLocation) : Bool × RallyState × List Event :=
  let current_total := s.count
  let step1 := set_and_save_ifchanged s (current_total + 1)
  let step2 := set_rally_point_with_index step1.1 current_total r
  if step2.1 then
    (true, step2.2.1, step1.2 ++ step2.2.2)
  else
    let step3 := set_and_save_ifchanged step2.2.1 current_total
    (false, step3.1, step1.2 ++ step2.2.2 ++ step3.2)

/-- Interpret a 32-bit two's-complement truncation on mathematical
integers, as performed by the assignment to the `int32_t` altitude field. -/
def wrap32 (x : Int) : Int :=
  (x + 2 ^ 31) % 2 ^ 32 - 2 ^ 31

/-- `AP_Rally::rally_location_to_location`: latitude and longitude pass
through unchanged, the compact altitude is scaled by 100 and added to the
home location's absolute altitude (32-bit arithmetic), and the result is
always marked absolute. -/
def rally_location_to_location (env : Env) (r : RallyLocation) : Location :=
  { lat := r.lat
    lng := r.lng
    alt := wrap32 (r.alt * 100 + env.home.alt)
    relative_alt := false }

/-- One iteration of the scan in `AP_Rally::find_nearest_rally_point`:
skip indices the store reports absent; convert the record; keep the
running minimum, replacing it only when the new distance is strictly
smaller or no minimum has been found yet (`min_dis < 0`), and only when
the converted location passes the validity check. -/
def find_nearest_step (env : Env) (s : RallyState) (current_loc : Location)
    (acc : Rat × Option RallyLocation) (i : Nat) : Rat × Option RallyLocation :=
  match get_rally_point_with_index s i with
  | none => acc
  | some next_rally =>
    let rally_loc := rally_location_to_location env next_rally
    let dis := env.dist current_loc rally_loc
    if env.isValid rally_loc = true ∧ (dis < acc.1 ∨ acc.1 < 0) then
      (dis, some next_rally)
    else
      acc

/-- The scan of `AP_Rally::find_nearest_rally_point` over indices
`0 .. count-1`, starting from `min_dis = -1` and no chosen record. -/
def find_nearest_scan (env : Env) (s : RallyState) (current_loc : Location) :
    Rat × Option RallyLocation :=
  (List.range s.count).foldl (find_nearest_step env s current_loc) (-1, none)

/-- `AP_Rally::find_nearest_rally_point`: after the scan, if a positive
kilometre limit is configured and the best distance exceeds
`limit * 1000` metres, report failure (use home); otherwise report the
nearest record when one was found (`min_dis ≥ 0`). -/
def find_nearest_rally_point (env : Env) (p : Params) (s : RallyState)
    (current_loc : Location) : Option RallyLocation :=
  if 0 < p.rally_limit_km ∧ p.rally_limit_km * 1000 < (find_nearest_scan env s current_loc).1 then
    none
  else if 0 ≤ (find_nearest_scan env s current_loc).1 then
    (find_nearest_scan env s current_loc).2
  else
    none

/-- The home-based fallback return location built by
`calc_best_rally_or_home_location`: the home position with its altitude
overridden by the requested return altitude, marked absolute. -/
def homeFallback (env : Env) (rtl_home_alt : Int) : Location :=
  { env.home with alt := rtl_home_alt, relative_alt := false }

/-- `AP_Rally::calc_best_rally_or_home_location` (three-argument form):
build the home fallback; under `RALLY_FS_MODE > 0` a non-failsafe call
returns the fallback unconditionally and a failsafe call forces
`include_home = false`; otherwise return the nearest rally point when the
search succeeds and it is closer than home (or home is not a candidate). -/
def calc_best_rally_or_home_location (env : Env) (p : Params) (s : RallyState)
    (current_loc : Location) (rtl_home_alt : Int) (failsafe : Bool) : Location :=
  let return_loc := homeFallback env rtl_home_alt
  let include_home : Bool :=
    if 0 < p.rally_fs_mode ∧ failsafe = true then false else p.rally_incl_home ≠ 0
  if 0 < p.rally_fs_mode ∧ failsafe = false then
    return_loc
  else
    match find_nearest_rally_point env p s current_loc with
    | none => return_loc
    | some ral_loc =>
      let loc := rally_location_to_location env ral_loc
      if include_home = false ∨ env.dist current_loc loc < env.dist current_loc return_loc then
        rally_location_to_location env ral_loc
      else
        return_loc

/-- `AP_Rally::calc_best_rally_or_home_location` (two-argument overload):
always a non-failsafe call. -/
def calc_best_rally_or_home_location_default (env : Env) (p : Params) (s : RallyState)
    (current_loc : Location) (rtl_home_alt : Int) : Location :=
  calc_best_rally_or_home_location env p s current_loc rtl_home_alt false

/-- The per-vehicle-class build configurations selecting the parameter
defaults. -/
inductive VehicleClass where
  | copterOrHeli
  | plane
  | rover
  | other
  deriving DecidableEq, Repr

/-- `RALLY_LIMIT_KM_DEFAULT`: 0.3 km for copter/heli builds, 5 km for
plane, 0.5 km for rover, 1 km otherwise. -/
def RALLY_LIMIT_KM_DEFAULT : VehicleClass → Rat
  | .copterOrHeli => 3 / 10
  | .plane => 5
  | .rover => 1 / 2
  | .other => 1

/-- `RALLY_INCLUDE_HOME_DEFAULT`: 1 for copter/heli, 0 for plane, 1 for
rover, 0 otherwise. -/
def RALLY_INCLUDE_HOME_DEFAULT : VehicleClass → Int
  | .copterOrHeli => 1
  | .plane => 0
  | .rover => 1
  | .other => 0

/-- The `FS_MODE` default in `var_info`: the literal 1, outside every
per-vehicle conditional block. -/
def RALLY_FS_MODE_DEFAULT : VehicleClass → Int :=
  fun _ => 1

/-- The parameter set a default-configured vehicle of the given class
starts with, per `AP_Rally::var_info`. -/
def default_params (v : VehicleClass) : Params :=
  { rally_limit_km := RALLY_LIMIT_KM_DEFAULT v
    rally_incl_home := RALLY_INCLUDE_HOME_DEFAULT v
    rally_fs_mode := RALLY_FS_MODE_DEFAULT v }

/-- An index holds a candidate of the nearest-point scan when the store
reports a record there and the converted location passes the validity
check. -/
def candidate (env : Env) (s : RallyState) (i : Nat) (r : RallyLocation) : Prop :=
  get_rally_point_with_index s i = some r ∧
  env.isValid (rally_location_to_location env r) = true

instance (env : Env) (s : RallyState) (i : Nat) (r : RallyLocation) :
    Decidable (candidate env s i r) :=
  inferInstanceAs (Decidable (_ ∧ _))

/-- Sample home location used by the concrete test fixtures. -/
def sampleHome : Location :=
  { lat := 100, lng := 200, alt := 30000, relative_alt := false }

/-- Fixture environment: rally-point locations (latitude 1) are at
distance 5, everything else (home) at distance 9; every location valid. -/
def envA : Env :=
  { home := sampleHome
    dist := fun _ b => if b.lat = 1 then 5 else 9
    isValid := fun _ => true }

/-- Fixture store: one record ⟨1, 1, -10⟩ at every slot, count 1,
capacity 4. -/
def sA : RallyState :=
  { storage := fun _ => { lat := 1, lng := 1, alt := -10 }
    count := 1
    cap := 4 }

/-- Fixture parameters: no distance limit, home included, failsafe mode
enabled. -/
def pA : Params :=
  { rally_limit_km := 0, rally_incl_home := 1, rally_fs_mode := 1 }

/-- Fixture current location. -/
def curA : Location :=
  { lat := 0, lng := 0, alt := 0, relative_alt := false }

/-- Fixture record with nonzero coordinates and negative altitude. -/
def rB : RallyLocation :=
  { lat := 1, lng := 2, alt := -10 }

/-- **C2.** With the failsafe-mode policy flag enabled and a
non-failsafe call, `calc_best_rally_or_home_location` returns the home
fallback location (home with altitude replaced, marked absolute)
unconditionally, for every store contents and current position. -/
theorem C2_fs_mode_nonfailsafe_short_circuit
    (env : Env) (p : Params) (s : RallyState) (current_loc : Location) (alt : Int)
    (hfs : 0 < p.rally_fs_mode) :
    calc_best_rally_or_home_location env p s current_loc alt false = homeFallback env alt := by
  simp [calc_best_rally_or_home_location, hfs]

/-- Witness for C2 at a concrete state holding a rally point closer than
home. -/
theorem C2_fs_mode_nonfailsafe_short_circuit_witness :
    0 < pA.rally_fs_mode ∧
    calc_best_rally_or_home_location envA pA sA curA 77 false = homeFallback envA 77 :=
  ⟨by decide, C2_fs_mode_nonfailsafe_short_circuit envA pA sA curA 77 (by decide)⟩

/-- **C3.** With the failsafe-mode policy flag enabled and a failsafe
call, home is excluded from candidacy regardless of the include-home
parameter: whenever the nearest-point search succeeds,
`calc_best_rally_or_home_location` returns the converted rally location. -/
theorem C3_fs_mode_failsafe_excludes_home
    (env : Env) (p : Params) (s : RallyState) (current_loc : Location) (alt : Int)
    (hfs : 0 < p.rally_fs_mode) (r : RallyLocation)
    (hfind : find_nearest_rally_point env p s current_loc = some r) :
    calc_best_rally_or_home_location env p s current_loc alt true =
      rally_location_to_location env r := by
  simp [calc_best_rally_or_home_location, hfs, hfind]

/-- Witness for C3: home is at distance 9, the rally point at distance 5,
`RALLY_INCL_HOME = 1`, yet the rally point is returned. -/
theorem C3_fs_mode_failsafe_excludes_home_witness :
    0 < pA.rally_fs_mode ∧
    find_nearest_rally_point envA pA sA curA = some { lat := 1, lng := 1, alt := -10 } ∧
    calc_best_rally_or_home_location envA pA sA curA 77 true =
      rally_location_to_location envA { lat := 1, lng := 1, alt := -10 } :=
  ⟨by decide, by decide,
    C3_fs_mode_failsafe_excludes_home envA pA sA curA 77 (by decide) _ (by decide)⟩

/-- **C8.** `rally_location_to_location` passes latitude and longitude
through unchanged, always marks the result absolute, and (whenever the
32-bit altitude arithmetic does not overflow) sets the altitude to the
compact altitude scaled by 100 plus the home location's absolute
altitude, including for negative compact altitudes. -/
theorem C8_rally_location_to_location_fields (env : Env) (r : RallyLocation) :
    (rally_location_to_location env r).lat = r.lat ∧
    (rally_location_to_location env r).lng = r.lng ∧
    (rally_location_to_location env r).relative_alt = false ∧
    (-(2 ^ 31) ≤ r.alt * 100 + env.home.alt → r.alt * 100 + env.home.alt < 2 ^ 31 →
      (rally_location_to_location env r).alt = r.alt * 100 + env.home.alt) := by
  refine ⟨rfl, rfl, rfl, fun h1 h2 => ?_⟩
  simp only [rally_location_to_location, wrap32]
  omega

/-- Witness for C8 at a record with negative compact altitude −10 and
home altitude 30000: the converted altitude is −1000 + 30000. -/
theorem C8_rally_location_to_location_fields_witness :
    -(2 ^ 31) ≤ rB.alt * 100 + envA.home.alt ∧
    rB.alt * 100 + envA.home.alt < 2 ^ 31 ∧
    (rally_location_to_location envA rB).alt = rB.alt * 100 + envA.home.alt :=
  ⟨by decide, by decide,
    (C8_rally_location_to_location_fields envA rB).2.2.2 (by decide) (by decide)⟩

/-- **C9.** `truncate` with a new count above the current one changes
nothing at all; with a new count at or below the current one it sets the
count to exactly that value and leaves every stored record byte (and the
capacity) unchanged. -/
theorem C9_truncate_only_shrinks (s : RallyState) (num : Nat) :
    (s.count < num → truncate s num = (s, [])) ∧
    (num ≤ s.count →
      (truncate s num).1.count = num ∧
      (∀ j, (truncate s num).1.storage j = s.storage j) ∧
      (truncate s num).1.cap = s.cap) := by
  constructor
  · intro h
    simp [truncate, h]
  · intro h
    have hnot : ¬ s.count < num := Nat.not_lt.mpr h
    by_cases he : num = s.count
    · simp [truncate, hnot, set_and_save_ifchanged, he]
    · simp [truncate, hnot, set_and_save_ifchanged, he]

/-- Witness for C9: growing from count 1 to 2 is a no-op; shrinking to 0
sets the count to 0 and leaves the record bytes in place. -/
theorem C9_truncate_only_shrinks_witness :
    (sA.count < 2 ∧ truncate sA 2 = (sA, [])) ∧
    (0 ≤ sA.count ∧ (truncate sA 0).1.count = 0 ∧
      (truncate sA 0).1.storage 0 = sA.storage 0) :=
  ⟨⟨by decide, (C9_truncate_only_shrinks sA 2).1 (by decide)⟩,
   ⟨by decide, ((C9_truncate_only_shrinks sA 0).2 (by decide)).1,
    ((C9_truncate_only_shrinks sA 0).2 (by decide)).2.1 0⟩⟩

/-- **C10.** The `FS_MODE` default is 1 for every vehicle class, while
the distance-limit and include-home defaults differ between classes;
consequently a default-configured system answers every non-failsafe call
of the two-argument `calc_best_rally_or_home_location` overload with the
home fallback location, regardless of stored rally points. -/
theorem C10_fs_mode_default_enabled :
    (∀ v, RALLY_FS_MODE_DEFAULT v = 1) ∧
    RALLY_LIMIT_KM_DEFAULT VehicleClass.copterOrHeli ≠ RALLY_LIMIT_KM_DEFAULT VehicleClass.plane ∧
    RALLY_INCLUDE_HOME_DEFAULT VehicleClass.copterOrHeli ≠
      RALLY_INCLUDE_HOME_DEFAULT VehicleClass.plane ∧
    (∀ v env s current_loc alt,
      calc_best_rally_or_home_location_default env (default_params v) s current_loc alt =
        homeFallback env alt) := by
  refine ⟨fun v => rfl, by norm_num [RALLY_LIMIT_KM_DEFAULT], by decide,
    fun v env s current_loc alt => ?_⟩
  simp [calc_best_rally_or_home_location_default, calc_best_rally_or_home_location,
    default_params, RALLY_FS_MODE_DEFAULT]

/-- Closed instance of C10: a default-configured plane build answers a
normal (two-argument) call with the home fallback although a rally point
is stored. -/
theorem C10_fs_mode_default_enabled_witness :
    calc_best_rally_or_home_location_default envA (default_params VehicleClass.plane) sA curA 9 =
      homeFallback envA 9 :=
  C10_fs_mode_default_enabled.2.2.2 VehicleClass.plane envA sA curA 9

/-- Fixture store at capacity: four records, count 4, capacity 4. -/
def sFull : RallyState :=
  { storage := fun _ => { lat := 1, lng := 1, alt := 0 }
    count := 4
    cap := 4 }

/-- Fixture store whose count parameter exceeds the capacity: count 3,
capacity 2, nonzero record bytes everywhere. -/
def sBad : RallyState :=
  { storage := fun _ => { lat := 1, lng := 1, alt := 0 }
    count := 3
    cap := 2 }

/-- **C4.** `append` persists count + 1 first, then writes the record at
the old count's index; when the write fails (exactly when the old count
is at or past the capacity) the old count is persisted again and the
state is as before, and when it succeeds the visible count grows by
exactly 1 and the record sits at the old count's index. -/
theorem C4_append_count_discipline (s : RallyState) (r : RallyLocation) :
    (s.cap ≤ s.count →
      append s r =
        (false, s, [Event.persistCount (s.count + 1), Event.persistCount s.count])) ∧
    (s.count < s.cap →
      (append s r).1 = true ∧
      (append s r).2.1.count = s.count + 1 ∧
      (append s r).2.1.storage s.count = r ∧
      (∀ j, j ≠ s.count → (append s r).2.1.storage j = s.storage j) ∧
      (append s r).2.1.cap = s.cap ∧
      (append s r).2.2 =
        [Event.persistCount (s.count + 1), Event.writeRecord s.count r,
         Event.logRally (s.count + 1) s.count r]) := by
  have hne1 : ¬ (s.count + 1 = s.count) := Nat.succ_ne_self s.count
  have hne2 : ¬ (s.count + 1 ≤ s.count) := Nat.not_succ_le_self s.count
  constructor
  · intro h
    have hne3 : ¬ (s.count = s.count + 1) := fun e => hne1 e.symm
    simp [append, set_and_save_ifchanged, set_rally_point_with_index, hne1, hne2, hne3, h]
  · intro h
    have hcap : ¬ (s.cap ≤ s.count) := Nat.not_le.mpr h
    simp [append, set_and_save_ifchanged, set_rally_point_with_index, hne1, hne2, hcap]
    intro j hj
    simp [hj]

/-- Witness for C4: at capacity (count 4 = cap 4) the append fails and
rolls the count back; below capacity it succeeds and the count becomes 2. -/
theorem C4_append_count_discipline_witness :
    (sFull.cap ≤ sFull.count ∧
      append sFull rB =
        (false, sFull, [Event.persistCount 5, Event.persistCount 4])) ∧
    (sA.count < sA.cap ∧ (append sA rB).1 = true ∧ (append sA rB).2.1.count = 2 ∧
      (append sA rB).2.1.storage 1 = rB) :=
  ⟨⟨by decide, (C4_append_count_discipline sFull rB).1 (by decide)⟩,
   ⟨by decide, ((C4_append_count_discipline sA rB).2 (by decide)).1,
    ((C4_append_count_discipline sA rB).2 (by decide)).2.1,
    ((C4_append_count_discipline sA rB).2 (by decide)).2.2.1⟩⟩

/-- **C5 (counterexample).** The claim asserts that
`get_rally_point_with_index` reports absent for every index at or beyond
the storage capacity, regardless of storage contents. The function only
validates the index against the count parameter: in a state whose count
parameter (3) exceeds the capacity (2), index 2 is at the capacity yet
the read record is reported present. -/
theorem C5_capacity_get_counterexample :
    sBad.cap ≤ 2 ∧ 2 < sBad.count ∧
    get_rally_point_with_index sBad 2 = some { lat := 1, lng := 1, alt := 0 } := by
  decide

/-- **C5 (amended).** `get_rally_point_with_index` reports absent for
every index at or beyond the current count, and
`set_rally_point_with_index` fails silently (state unchanged, no side
effects) for every index at or beyond the current count or at or beyond
the capacity; under the documented invariant count ≤ capacity, `get`
also reports absent for every index at or beyond the capacity. -/
theorem C5_out_of_range_silent_failure (s : RallyState) (i : Nat) (r : RallyLocation) :
    (s.count ≤ i → get_rally_point_with_index s i = none) ∧
    (s.count ≤ i ∨ s.cap ≤ i → set_rally_point_with_index s i r = (false, s, [])) ∧
    (s.count ≤ s.cap → s.cap ≤ i → get_rally_point_with_index s i = none) := by
  refine ⟨fun h => ?_, fun h => ?_, fun hinv h => ?_⟩
  · simp [get_rally_point_with_index, h]
  · rcases h with h | h
    · simp [set_rally_point_with_index, h]
    · by_cases hc : s.count ≤ i
      · simp [set_rally_point_with_index, hc]
      · simp [set_rally_point_with_index, hc, h]
  · exact (by simp [get_rally_point_with_index, le_trans hinv h] :
      get_rally_point_with_index s i = none)

/-- Witness for C5 (amended) at index 7 of a store with count 1 and
capacity 4. -/
theorem C5_out_of_range_silent_failure_witness :
    (sA.count ≤ 7 ∧ get_rally_point_with_index sA 7 = none) ∧
    (sA.cap ≤ 7 ∧ set_rally_point_with_index sA 7 rB = (false, sA, [])) ∧
    (sA.count ≤ sA.cap ∧ get_rally_point_with_index sA 7 = none) :=
  ⟨⟨by decide, (C5_out_of_range_silent_failure sA 7 rB).1 (by decide)⟩,
   ⟨by decide, (C5_out_of_range_silent_failure sA 7 rB).2.1 (Or.inr (by decide))⟩,
   ⟨by decide, (C5_out_of_range_silent_failure sA 7 rB).2.2 (by decide) (by decide)⟩⟩

/-- **C6 (counterexample).** The claim asserts that a successfully set
record is returned exactly by a subsequent get. A record with zero
latitude and longitude is accepted by `set_rally_point_with_index` at a
valid index, yet `get_rally_point_with_index` reports it absent. -/
theorem C6_zero_record_roundtrip_counterexample :
    (set_rally_point_with_index sA 0 { lat := 0, lng := 0, alt := 5 }).1 = true ∧
    get_rally_point_with_index
      (set_rally_point_with_index sA 0 { lat := 0, lng := 0, alt := 5 }).2.1 0 = none := by
  decide

/-- **C6 (amended).** For every index and record with nonzero latitude
or longitude, if `set_rally_point_with_index` succeeds then a subsequent
`get_rally_point_with_index` at that index returns exactly that record. -/
theorem C6_set_get_roundtrip (s : RallyState) (i : Nat) (r : RallyLocation)
    (hset : (set_rally_point_with_index s i r).1 = true)
    (hvalid : ¬ (r.lat = 0 ∧ r.lng = 0)) :
    get_rally_point_with_index (set_rally_point_with_index s i r).2.1 i = some r := by
  by_cases h1 : s.count ≤ i
  · simp [set_rally_point_with_index, h1] at hset
  · by_cases h2 : s.cap ≤ i
    · simp [set_rally_point_with_index, h1, h2] at hset
    · simp [set_rally_point_with_index, h1, h2, get_rally_point_with_index, hvalid]

/-- Witness for C6 (amended): setting ⟨1, 2, −10⟩ at index 0 and reading
it back. -/
theorem C6_set_get_roundtrip_witness :
    (set_rally_point_with_index sA 0 rB).1 = true ∧
    ¬ (rB.lat = 0 ∧ rB.lng = 0) ∧
    get_rally_point_with_index (set_rally_point_with_index sA 0 rB).2.1 0 = some rB :=
  ⟨by decide, by decide, C6_set_get_roundtrip sA 0 rB (by decide) (by decide)⟩

/-- If every candidate of the scan lies strictly beyond `L`, the running
minimum stays at the sentinel −1 or strictly beyond `L` through any list
of indices. -/
theorem scan_min_far (env : Env) (s : RallyState) (current_loc : Location) (L : Rat)
    (hfar : ∀ i r, candidate env s i r →
      L < env.dist current_loc (rally_location_to_location env r)) :
    ∀ (l : List Nat) (acc : Rat × Option RallyLocation),
      (acc.1 = -1 ∨ L < acc.1) →
      ((l.foldl (find_nearest_step env s current_loc) acc).1 = -1 ∨
        L < (l.foldl (find_nearest_step env s current_loc) acc).1) := by
  intro l
  induction l with
  | nil => exact fun acc h => h
  | cons i t ih =>
    intro acc h
    rw [List.foldl_cons]
    apply ih
    rcases hget : get_rally_point_with_index s i with _ | r
    · simpa [find_nearest_step, hget] using h
    · by_cases hcond : env.isValid (rally_location_to_location env r) = true ∧
          (env.dist current_loc (rally_location_to_location env r) < acc.1 ∨ acc.1 < 0)
      · have hstep : find_nearest_step env s current_loc acc i =
            (env.dist current_loc (rally_location_to_location env r), some r) := by
          simp [find_nearest_step, hget, hcond.1, hcond.2]
        rw [hstep]
        exact Or.inr (hfar i r ⟨hget, hcond.1⟩)
      · have hstep : find_nearest_step env s current_loc acc i = acc := by
          simp only [find_nearest_step, hget]
          rw [if_neg hcond]
        rw [hstep]
        exact h

/-- **C1.** When a strictly positive distance limit is configured and
every valid stored rally point lies strictly beyond `limit_km * 1000`
metres of the current position, `find_nearest_rally_point` reports
failure and `calc_best_rally_or_home_location` returns the home fallback
location, for every fallback altitude and failsafe flag (in particular
with home included and a nearest rally point present). -/
theorem C1_distance_limit_veto (env : Env) (p : Params) (s : RallyState)
    (current_loc : Location)
    (hlim : 0 < p.rally_limit_km)
    (hfar : ∀ i r, candidate env s i r →
      p.rally_limit_km * 1000 < env.dist current_loc (rally_location_to_location env r)) :
    find_nearest_rally_point env p s current_loc = none ∧
    ∀ alt failsafe,
      calc_best_rally_or_home_location env p s current_loc alt failsafe =
        homeFallback env alt := by
  have hscan : (find_nearest_scan env s current_loc).1 = -1 ∨
      p.rally_limit_km * 1000 < (find_nearest_scan env s current_loc).1 :=
    scan_min_far env s current_loc (p.rally_limit_km * 1000) hfar
      (List.range s.count) (-1, none) (Or.inl rfl)
  have hfind : find_nearest_rally_point env p s current_loc = none := by
    unfold find_nearest_rally_point
    rcases hscan with h | h
    · have h2 : ¬ ((0 : Rat) ≤ (find_nearest_scan env s current_loc).1) := by
        rw [h]; norm_num
      have hc : ¬ (0 < p.rally_limit_km ∧
          p.rally_limit_km * 1000 < (find_nearest_scan env s current_loc).1) := by
        rw [h]
        rintro ⟨hp, hv⟩
        have hpos : (0 : Rat) < p.rally_limit_km * 1000 := mul_pos hp (by norm_num)
        linarith
      rw [if_neg hc, if_neg h2]
    · rw [if_pos ⟨hlim, h⟩]
  refine ⟨hfind, fun alt failsafe => ?_⟩
  simp [calc_best_rally_or_home_location, hfind]

/-- Witness for C1: limit 1 km, a single valid rally point 1500 m away,
home included, and still the home fallback is returned. -/
def envW : Env :=
  { home := sampleHome
    dist := fun _ _ => 1500
    isValid := fun _ => true }

/-- Parameters for the C1 witness: limit 1 km, home included, failsafe
mode off. -/
def pW : Params :=
  { rally_limit_km := 1, rally_incl_home := 1, rally_fs_mode := 0 }

/-- Closed instance of C1 at the 1500 m / 1 km fixture. -/
theorem C1_distance_limit_veto_witness :
    0 < pW.rally_limit_km ∧
    find_nearest_rally_point envW pW sA curA = none ∧
    calc_best_rally_or_home_location envW pW sA curA 55 false = homeFallback envW 55 :=
  ⟨by decide,
   (C1_distance_limit_veto envW pW sA curA (by decide) (fun i r _ => by norm_num [pW, envW])).1,
   (C1_distance_limit_veto envW pW sA curA (by decide) (fun i r _ => by norm_num [pW, envW])).2 55 false⟩

/-- Loop invariant of the nearest-point scan when index `i` holds the
first candidate attaining the minimum distance `d`: before index `i` the
running minimum is the sentinel −1 or strictly beyond `d`; from index
`i` on, the scan state is exactly `(d, some ri)` and is never replaced
by a later equal-distance candidate. -/
theorem C7_scan_first_at_min (env : Env) (s : RallyState) (current_loc : Location)
    (i : Nat) (ri : RallyLocation) (d : Rat)
    (hci : candidate env s i ri)
    (hdi : env.dist current_loc (rally_location_to_location env ri) = d)
    (hd0 : 0 ≤ d)
    (hmin : ∀ k r, candidate env s k r →
      d ≤ env.dist current_loc (rally_location_to_location env r))
    (hfirst : ∀ k r, k < i → candidate env s k r →
      d < env.dist current_loc (rally_location_to_location env r)) :
    ∀ n : Nat,
      (n ≤ i →
        (((List.range n).foldl (find_nearest_step env s current_loc) (-1, none)).1 = -1 ∨
          d < ((List.range n).foldl (find_nearest_step env s current_loc) (-1, none)).1)) ∧
      (i < n →
        (List.range n).foldl (find_nearest_step env s current_loc) (-1, none) =
          (d, some ri)) := by
  intro n
  induction n with
  | zero => exact ⟨fun _ => Or.inl rfl, fun h => absurd h (Nat.not_lt_zero i)⟩
  | succ n ih =>
    rw [List.range_succ, List.foldl_append, List.foldl_cons, List.foldl_nil]
    set acc := (List.range n).foldl (find_nearest_step env s current_loc) (-1, none) with hacc
    rcases Nat.lt_trichotomy n i with hni | hni | hni
    · refine ⟨fun _ => ?_, fun h => absurd h (by omega)⟩
      have hinv := ih.1 (Nat.le_of_lt hni)
      rcases hget : get_rally_point_with_index s n with _ | r
      · simpa [find_nearest_step, hget] using hinv
      · by_cases hval : env.isValid (rally_location_to_location env r) = true
        · by_cases hupd : env.dist current_loc (rally_location_to_location env r) < acc.1 ∨
              acc.1 < 0
          · have hstep : find_nearest_step env s current_loc acc n =
                (env.dist current_loc (rally_location_to_location env r), some r) := by
              simp [find_nearest_step, hget, hval, hupd]
            rw [hstep]
            exact Or.inr (hfirst n r hni ⟨hget, hval⟩)
          · have hstep : find_nearest_step env s current_loc acc n = acc := by
              simp only [find_nearest_step, hget]
              rw [if_neg (by rw [hval]; simpa using hupd)]
            rw [hstep]
            exact hinv
        · have hstep : find_nearest_step env s current_loc acc n = acc := by
            simp only [find_nearest_step, hget]
            rw [if_neg (fun hc => hval hc.1)]
          rw [hstep]
          exact hinv
    · subst hni
      refine ⟨fun h => absurd h (by omega), fun _ => ?_⟩
      have hinv := ih.1 (le_refl n)
      have hcond : env.dist current_loc (rally_location_to_location env ri) < acc.1 ∨
          acc.1 < 0 := by
        rcases hinv with h | h
        · right; rw [h]; norm_num
        · left; rw [hdi]; exact h
      have hstep : find_nearest_step env s current_loc acc n =
          (env.dist current_loc (rally_location_to_location env ri), some ri) := by
        simp only [find_nearest_step, hci.1]
        rw [if_pos ⟨hci.2, hcond⟩]
      rw [hstep, hdi]
    · refine ⟨fun h => absurd h (by omega), fun _ => ?_⟩
      have hacc2 := ih.2 hni
      rw [hacc2]
      rcases hget : get_rally_point_with_index s n with _ | r
      · simp [find_nearest_step, hget]
      · by_cases hval : env.isValid (rally_location_to_location env r) = true
        · have h1 : ¬ (env.dist current_loc (rally_location_to_location env r) <
              ((d, some ri) : Rat × Option RallyLocation).1) :=
            not_lt.mpr (hmin n r ⟨hget, hval⟩)
          have h2 : ¬ (((d, some ri) : Rat × Option RallyLocation).1 < 0) := not_lt.mpr hd0
          simp only [find_nearest_step, hget]
          rw [if_neg (by rintro ⟨-, hc | hc⟩; exact h1 hc; exact h2 hc)]
        · simp only [find_nearest_step, hget]
          rw [if_neg (fun hc => hval hc.1)]

/-- **C7.** When indices `i < j` hold valid rally points at exactly equal
distance `d` from the current position, no valid point is strictly
closer, `i` is the first index attaining `d`, and the distance limit does
not veto, `find_nearest_rally_point` selects the record at the lower
index `i`: the running minimum is replaced only on a strictly smaller
distance, never on an equal one. -/
theorem C7_tie_break_lower_index (env : Env) (p : Params) (s : RallyState)
    (current_loc : Location) (i j : Nat) (ri rj : RallyLocation) (d : Rat)
    (hij : i < j)
    (hci : candidate env s i ri)
    (hcj : candidate env s j rj)
    (hdi : env.dist current_loc (rally_location_to_location env ri) = d)
    (hdj : env.dist current_loc (rally_location_to_location env rj) = d)
    (hd0 : 0 ≤ d)
    (hmin : ∀ k r, candidate env s k r →
      d ≤ env.dist current_loc (rally_location_to_location env r))
    (hfirst : ∀ k r, k < i → candidate env s k r →
      d < env.dist current_loc (rally_location_to_location env r))
    (hlim : ¬ (0 < p.rally_limit_km ∧ p.rally_limit_km * 1000 < d)) :
    find_nearest_rally_point env p s current_loc = some ri := by
  have hi_lt : i < s.count := by
    by_contra hc
    have hnone : get_rally_point_with_index s i = none := by
      simp [get_rally_point_with_index, Nat.le_of_not_lt hc]
    rw [hci.1] at hnone
    exact Option.noConfusion hnone
  have hscan : find_nearest_scan env s current_loc = (d, some ri) :=
    (C7_scan_first_at_min env s current_loc i ri d hci hdi hd0 hmin hfirst s.count).2 hi_lt
  unfold find_nearest_rally_point
  rw [hscan]
  rw [if_neg hlim, if_pos hd0]

/-- Fixture environment for the C7 witness: every location at distance 7,
everything valid. -/
def envC : Env :=
  { home := sampleHome
    dist := fun _ _ => 7
    isValid := fun _ => true }

/-- Fixture store for the C7 witness: two distinct records at indices 0
and 1, count 2, capacity 4. -/
def sC7 : RallyState :=
  { storage := fun n => if n = 0 then { lat := 1, lng := 1, alt := 0 }
      else { lat := 2, lng := 2, alt := 0 }
    count := 2
    cap := 4 }

/-- Fixture parameters for the C7 witness: no limit, home included,
failsafe mode off. -/
def pC : Params :=
  { rally_limit_km := 0, rally_incl_home := 1, rally_fs_mode := 0 }

/-- Closed instance of C7: two valid points both at distance 7; the scan
returns the record at index 0. -/
theorem C7_tie_break_lower_index_witness :
    candidate envC sC7 0 { lat := 1, lng := 1, alt := 0 } ∧
    candidate envC sC7 1 { lat := 2, lng := 2, alt := 0 } ∧
    envC.dist curA (rally_location_to_location envC { lat := 1, lng := 1, alt := 0 }) = 7 ∧
    envC.dist curA (rally_location_to_location envC { lat := 2, lng := 2, alt := 0 }) = 7 ∧
    find_nearest_rally_point envC pC sC7 curA = some { lat := 1, lng := 1, alt := 0 } :=
  ⟨by decide, by decide, rfl, rfl,
   C7_tie_break_lower_index envC pC sC7 curA 0 1
     { lat := 1, lng := 1, alt := 0 } { lat := 2, lng := 2, alt := 0 } 7
     (by decide) (by decide) (by decide) rfl rfl (by norm_num)
     (fun k r hc => le_refl 7)
     (fun k r hk hc => absurd hk (Nat.not_lt_zero k))
     (by norm_num [pC])⟩

end AP_Rally
